import Mathlib

set_option autoImplicit false

/-!
Shallow embedding of the collaborative-whiteboard sync core: the fabric.js
plus socket.io `Whiteboard` component.

Conventions of the embedding:

* An attribute bag (the serialized JSON payload of a canvas object, minus the
  identity field) is an association list from string keys to string values.
  `setAll` models the javascript property assignment `obj.set({ ...data })`,
  which writes each provided key in order onto the object.
* A `SceneObject` models one object on the canvas: its optional `id` property
  (absent ids are `none`, mirroring `undefined`), its attribute bag, and the
  transient `skipEmit` marker (`__skipEmit` in the source) stamped on objects
  that the remote apply handlers touched.
* The canvas object list is a `Store`.  The external scene-graph library is
  modelled per the specification: `canvas.add` appends the object and fires
  the `object:added` canvas event, `canvas.remove` deletes it and fires
  `object:removed`, `obj.set` assigns the given properties, and
  `canvas.clear` empties the object list without replaying per-object events.
* The remote handlers registered with `socket.on` become the `apply...`
  functions; the canvas listeners registered with `canvas.on` that emit to the
  socket become `localAddedHandler` and `localModifiedEvents`.
-/

/-- Attribute bags: ordered key-value pairs of a serialized object. -/
abbrev Attrs := List (String × String)

/-- First binding of key `k` in an attribute bag (a javascript property read). -/
def lookupAttr (k : String) : Attrs → Option String
  | [] => none
  | (k₁, v) :: rest => if k₁ = k then some v else lookupAttr k rest

/-- Assign one property: replace the existing binding of `k` if present,
otherwise append it. -/
def setKey : Attrs → String → String → Attrs
  | [], k, v => [(k, v)]
  | (k₁, v₁) :: rest, k, v =>
    if k₁ = k then (k, v) :: rest else (k₁, v₁) :: setKey rest k v

/-- Models `obj.set({ ...data })` from the remote `object:modified` handler:
every key of the incoming snapshot is assigned in order onto the existing
attribute bag.  Keys absent from the snapshot keep their prior value. -/
def setAll (a : Attrs) (d : Attrs) : Attrs :=
  d.foldl (fun acc kv => setKey acc kv.1 kv.2) a

/-- One fabric object on the canvas: the optional `id` property, the
attribute bag, and the transient `__skipEmit` marker. -/
structure SceneObject where
  id : Option String
  attrs : Attrs
  skipEmit : Bool
deriving DecidableEq, Repr

/-- The canvas object list, as returned by `canvas.getObjects()`. -/
abbrev Store := List SceneObject

/-- Models `canvas.getObjects().find((o) => o.get('id') === i)`: the first
object whose id equals the requested one. -/
def findObj (s : Store) (i : Option String) : Option SceneObject :=
  match s with
  | [] => none
  | o :: rest => if o.id = i then some o else findObj rest i

/-- Attribute bag of the object the store holds under identity `i`, when any. -/
def storeAttrs (s : Store) (i : Option String) : Option Attrs :=
  (findObj s i).map (fun o => o.attrs)

/-- Number of objects in the store carrying identity `i`. -/
def countId : Store → Option String → Nat
  | [], _ => 0
  | o :: rest, i => (if o.id = i then 1 else 0) + countId rest i

/-- The remote `object:added` handler (source lines 143 to 156): enliven the
snapshot into an object; if no object with the same id is on the canvas, stamp
the skip-emit marker and add it; otherwise do nothing. -/
def applyAdded (s : Store) (i : Option String) (d : Attrs) : Store :=
  match findObj s i with
  | some _ => s
  | none => s ++ [{ id := i, attrs := d, skipEmit := true }]

/-- The remote `object:modified` handler (source lines 158 to 167): find the
object by id; when found, stamp the skip-emit marker and assign the incoming
snapshot onto it with `obj.set({ ...objectData })`; when not found, do
nothing.  The handler mutates the found object in place, so the first object
whose id matches is the one rewritten.  The snapshot also carries the id key,
but the object was found by that very id, so reassigning it is the identity;
the embedding therefore keeps `id` unchanged and applies the remaining keys. -/
def applyModified (s : Store) (i : Option String) (d : Attrs) : Store :=
  match s with
  | [] => []
  | o :: rest =>
    if o.id = i then { o with skipEmit := true, attrs := setAll o.attrs d } :: rest
    else o :: applyModified rest i d

/-- The remote `object:removed` handler (source lines 169 to 178): find the
object by id; when found, stamp the skip-emit marker and remove it from the
canvas; when not found, do nothing. -/
def applyRemoved (s : Store) (i : Option String) : Store :=
  match s with
  | [] => []
  | o :: rest => if o.id = i then rest else o :: applyRemoved rest i

/-- Models `canvas.clear()` of the external scene-graph library, per the
specification: every local object is removed irrespective of identity, and no
per-object removal events are replayed to observers. -/
def clearStore (_ : Store) : Store := []

/-- The remote `canvas:clear` handler (source lines 180 to 182): clear the
canvas. -/
def applyClear (s : Store) : Store := clearStore s

/-- Instantiation of one snapshot entry by `util.enlivenObjects`: a fresh
object carrying the transmitted id and attributes; the sync handler stamps
the skip-emit marker on it before adding. -/
def instantiate (od : Option String × Attrs) : SceneObject :=
  { id := od.1, attrs := od.2, skipEmit := true }

/-- The remote `object:sync` handler (source lines 184 to 193): enliven every
entry of the payload, clear the canvas, then add each enlivened object with
the skip-emit marker stamped. -/
def applySnapshot (s : Store) (payload : List (Option String × Attrs)) : Store :=
  payload.foldl (fun acc od => acc ++ [instantiate od]) (clearStore s)

/-- Outbound socket messages the client can emit. -/
inductive Msg where
  | objectAdded (id : Option String) (attrs : Attrs)
  | objectModified (id : Option String) (attrs : Attrs)
  | objectRemoved (id : Option String) (attrs : Attrs)
  | canvasClear
deriving DecidableEq, Repr

/-- Javascript truthiness test `!e.target.id`: an id is falsy when it is
`undefined` or the empty string. -/
def isFalsyId : Option String → Bool
  | none => true
  | some s => s == ""

/-- Models `generateId` (source lines 19 to 21), which calls `uuidv4()` from
the external uuid library: a fresh, never-empty identifier string, indexed
here by a counter standing for the randomness source. -/
def generateId (n : Nat) : String := "uuid-" ++ toString n

/-- Id assignment of the local `object:added` canvas listener: when the id is
falsy, assign a freshly generated one, otherwise keep the object as is. -/
def assignId (n : Nat) (o : SceneObject) : SceneObject :=
  if isFalsyId o.id then { o with id := some (generateId n) } else o

/-- Result of the local `object:added` canvas listener: the object after id
assignment, and the messages emitted to the socket. -/
structure AddedResult where
  obj : SceneObject
  emitted : List Msg
deriving DecidableEq, Repr

/-- The local `object:added` canvas listener (source lines 118 to 126): assign
an id when the current one is falsy, then, unless the object carries the
skip-emit marker, emit one `object:added` message with the serialized object. -/
def localAddedHandler (n : Nat) (o : SceneObject) : AddedResult :=
  if (assignId n o).skipEmit then { obj := assignId n o, emitted := [] }
  else
    { obj := assignId n o
    , emitted := [Msg.objectAdded (assignId n o).id (assignId n o).attrs] }

/-- The local `object:modified` canvas listener (source lines 128 to 133):
when the object carries the skip-emit marker, emit nothing; otherwise emit one
`object:modified` message with the serialized object. -/
def localModifiedEvents (o : SceneObject) : List Msg :=
  if o.skipEmit then [] else [Msg.objectModified o.id o.attrs]

/-- The `clear` tool branch (source lines 422 to 427): clear the canvas and
reset the background colour.  The branch contains no `socket.emit` call, so
the list of emitted messages is empty. -/
def clearToolEffect (s : Store) : Store × List Msg := (clearStore s, [])

/-- Listener bookkeeping of one client session: the connection flag, the
channel names registered on the socket, and the event names registered on the
window. -/
structure TransportState where
  connected : Bool
  socketListeners : List String
  windowListeners : List String
deriving DecidableEq, Repr

/-- Listener registrations performed by `init` (source lines 61 to 196), in
order: `socket.on('connect')`, the five remote handlers, and the two window
listeners. -/
def initTransport : TransportState :=
  { connected := true
  , socketListeners :=
      ["connect", "object:added", "object:modified", "object:removed",
       "canvas:clear", "object:sync"]
  , windowListeners := ["resize", "keydown"] }

/-- The teardown closure returned by `init` (source lines 198 to 217): remove
the two window listeners, call `socket.off` for `object:added`,
`object:removed`, `object:modified` and `object:sync`, then disconnect the
socket and dispose the canvas. -/
def teardown (st : TransportState) : TransportState :=
  { connected := false
  , socketListeners :=
      ((((st.socketListeners.erase "object:added").erase
          "object:removed").erase "object:modified").erase "object:sync")
  , windowListeners := (st.windowListeners.erase "resize").erase "keydown" }

/-- Math.abs on the integer coordinates of the gesture model. -/
def iabs (z : Int) : Int := if z < 0 then -z else z

/-- Math.min on the integer coordinates of the gesture model. -/
def imin (a b : Int) : Int := if a ≤ b then a else b

/-- A pointer position. -/
structure Pt where
  x : Int
  y : Int
deriving DecidableEq, Repr

/-- The geometry of the rectangle under construction. -/
structure RectShape where
  left : Int
  top : Int
  width : Int
  height : Int
deriving DecidableEq, Repr

/-- State of one rectangle-tool gesture: the gesture start point, the shape
being built (`none` once released), whether the shape has been added to the
canvas, and how many `object:added` and `object:removed` messages the canvas
listeners have emitted for it (locally created shapes carry no skip-emit
marker, so every add and remove of them emits). -/
structure RectGesture where
  startX : Int
  startY : Int
  shape : Option RectShape
  onCanvas : Bool
  addedEmits : Nat
  removedEmits : Nat
deriving DecidableEq, Repr

/-- The rectangle-tool `mouse:down` handler (source lines 254 to 269): record
the start point and create the shape with zero width and height, without
adding it to the canvas. -/
def rectMouseDown (p : Pt) : RectGesture :=
  { startX := p.x
  , startY := p.y
  , shape := some { left := p.x, top := p.y, width := 0, height := 0 }
  , onCanvas := false
  , addedEmits := 0
  , removedEmits := 0 }

/-- The rectangle-tool `mouse:move` handler (source lines 271 to 288): resize
the shape from the start point and the pointer; when the shape is not yet on
the canvas, add it (which fires `object:added` and hence emits one message). -/
def rectMouseMove (g : RectGesture) (p : Pt) : RectGesture :=
  match g.shape with
  | none => g
  | some _ =>
    let sh : RectShape :=
      { left := imin g.startX p.x
      , top := imin g.startY p.y
      , width := iabs (p.x - g.startX)
      , height := iabs (p.y - g.startY) }
    if g.onCanvas then { g with shape := some sh }
    else { g with shape := some sh, onCanvas := true, addedEmits := g.addedEmits + 1 }

/-- The rectangle-tool `mouse:up` handler (source lines 290 to 304): when the
shape has non-zero width and height, remove the temporary copy if it is on
the canvas (firing `object:removed`) and add the final shape (firing
`object:added`); otherwise leave the canvas untouched, so a temporary copy
added during `mouse:move` stays on it.  Returns the canvas contents and the
final gesture state. -/
def rectMouseUp (base : List RectShape) (g : RectGesture) :
    List RectShape × RectGesture :=
  match g.shape with
  | none => (base, g)
  | some sh =>
    if sh.width ≠ 0 ∧ sh.height ≠ 0 then
      ( base ++ [sh]
      , { g with
            shape := none
            onCanvas := false
            removedEmits := g.removedEmits + (if g.onCanvas then 1 else 0)
            addedEmits := g.addedEmits + 1 } )
    else
      (base ++ (if g.onCanvas then [sh] else []), { g with shape := none })

/-- One full rectangle gesture over a canvas holding `base`: mouse down, the
given sequence of mouse moves, then mouse up.  Returns the final canvas
contents, the number of `object:added` messages emitted, and the number of
`object:removed` messages emitted. -/
def runRectGesture (base : List RectShape) (down : Pt) (moves : List Pt) :
    List RectShape × Nat × Nat :=
  let g := moves.foldl rectMouseMove (rectMouseDown down)
  let r := rectMouseUp base g
  (r.1, r.2.addedEmits, r.2.removedEmits)

/-- Demo object carrying identity `a` with no attributes. -/
def wObjA : SceneObject := { id := some "a", attrs := [], skipEmit := false }

/-- Demo store holding two locally created objects. -/
def demoStoreTwo : Store :=
  [{ id := some "a", attrs := [], skipEmit := false },
   { id := some "b", attrs := [], skipEmit := false }]

/-- Demo store holding the rectangle `r1` of the specification scenario. -/
def r1Store : Store :=
  [{ id := some "r1", attrs := [("left", "10")], skipEmit := false }]

/-- Demo object for the last-writer-wins witness. -/
def w3obj : SceneObject :=
  { id := some "x", attrs := [("color", "r0")], skipEmit := false }

theorem lookupAttr_setKey (a : Attrs) (k v k₂ : String) :
    lookupAttr k₂ (setKey a k v) = if k = k₂ then some v else lookupAttr k₂ a := by
  induction a with
  | nil => by_cases h : k = k₂ <;> simp [setKey, lookupAttr, h]
  | cons kv rest ih =>
    obtain ⟨k₁, v₁⟩ := kv
    by_cases h₁ : k₁ = k <;> by_cases h₂ : k = k₂ <;> by_cases h₃ : k₁ = k₂ <;>
      simp_all [setKey, lookupAttr]

theorem lookupAttr_not_mem (k : String) (d : Attrs)
    (h : k ∉ d.map Prod.fst) : lookupAttr k d = none := by
  induction d with
  | nil => rfl
  | cons kv rest ih =>
    obtain ⟨k₁, v₁⟩ := kv
    simp only [List.map_cons, List.mem_cons] at h
    push_neg at h
    have h₁ : ¬ k₁ = k := fun hh => h.1 hh.symm
    simp [lookupAttr, h₁, ih h.2]

theorem lookupAttr_mem {k v : String} {d : Attrs}
    (h : lookupAttr k d = some v) : (k, v) ∈ d := by
  induction d with
  | nil => simp [lookupAttr] at h
  | cons kv rest ih =>
    obtain ⟨k₁, v₁⟩ := kv
    by_cases h₁ : k₁ = k
    · subst h₁
      simp [lookupAttr] at h
      subst h
      exact List.mem_cons_self _ _
    · simp [lookupAttr, h₁] at h
      exact List.mem_cons_of_mem _ (ih h)

theorem lookupAttr_setAll (a d : Attrs) (k : String)
    (hd : (d.map Prod.fst).Nodup) :
    lookupAttr k (setAll a d) =
      match lookupAttr k d with
      | some v => some v
      | none => lookupAttr k a := by
  induction d generalizing a with
  | nil => simp [setAll, lookupAttr]
  | cons kv rest ih =>
    obtain ⟨k₁, v₁⟩ := kv
    simp only [List.map_cons, List.nodup_cons] at hd
    rw [show setAll a ((k₁, v₁) :: rest) = setAll (setKey a k₁ v₁) rest from rfl,
      ih _ hd.2]
    by_cases h₁ : k₁ = k
    · subst h₁
      rw [lookupAttr_not_mem _ _ hd.1]
      simp [lookupAttr, lookupAttr_setKey]
    · cases hrest : lookupAttr k rest <;>
        simp [lookupAttr, h₁, lookupAttr_setKey, hrest]

theorem findObj_id {s : Store} {i : Option String} {o : SceneObject}
    (h : findObj s i = some o) : o.id = i := by
  induction s with
  | nil => simp [findObj] at h
  | cons o₁ rest ih =>
    by_cases h₁ : o₁.id = i
    · simp [findObj, h₁] at h
      exact h ▸ h₁
    · simp [findObj, h₁] at h
      exact ih h

theorem findObj_applyModified {s : Store} {i : Option String} {o : SceneObject}
    (d : Attrs) (h : findObj s i = some o) :
    findObj (applyModified s i d) i =
      some { o with skipEmit := true, attrs := setAll o.attrs d } := by
  induction s with
  | nil => simp [findObj] at h
  | cons o₁ rest ih =>
    by_cases h₁ : o₁.id = i
    · simp [findObj, h₁] at h
      subst h
      simp [applyModified, findObj, h₁]
    · simp [findObj, h₁] at h
      simp [applyModified, findObj, h₁, ih h]

theorem applyModified_not_found {s : Store} {i : Option String} (d : Attrs)
    (h : findObj s i = none) : applyModified s i d = s := by
  induction s with
  | nil => rfl
  | cons o₁ rest ih =>
    by_cases h₁ : o₁.id = i
    · simp [findObj, h₁] at h
    · simp [findObj, h₁] at h
      simp [applyModified, h₁, ih h]

theorem applyRemoved_not_found {s : Store} {i : Option String}
    (h : findObj s i = none) : applyRemoved s i = s := by
  induction s with
  | nil => rfl
  | cons o₁ rest ih =>
    by_cases h₁ : o₁.id = i
    · simp [findObj, h₁] at h
    · simp [findObj, h₁] at h
      simp [applyRemoved, h₁, ih h]

theorem findObj_append (s t : Store) (i : Option String) :
    findObj (s ++ t) i =
      match findObj s i with
      | some o => some o
      | none => findObj t i := by
  induction s with
  | nil => simp [findObj]
  | cons o₁ rest ih =>
    by_cases h₁ : o₁.id = i <;> simp [findObj, h₁, ih]

theorem countId_append (s t : Store) (i : Option String) :
    countId (s ++ t) i = countId s i + countId t i := by
  induction s with
  | nil => simp [countId]
  | cons o₁ rest ih => simp [countId, ih, Nat.add_assoc]

theorem countId_eq_zero {s : Store} {i : Option String} :
    countId s i = 0 ↔ findObj s i = none := by
  induction s with
  | nil => simp [countId, findObj]
  | cons o₁ rest ih =>
    by_cases h₁ : o₁.id = i <;> simp [countId, findObj, h₁, ih]

theorem foldl_snoc_instantiate (payload : List (Option String × Attrs))
    (acc : Store) :
    payload.foldl (fun a od => a ++ [instantiate od]) acc
      = acc ++ payload.map instantiate := by
  induction payload generalizing acc with
  | nil => simp
  | cons od rest ih => simp [ih, List.append_assoc]

theorem generateId_ne_empty (n : Nat) : generateId n ≠ "" := by
  intro h
  have h₁ := congrArg String.length h
  rw [generateId, String.length_append] at h₁
  have h₂ : ("uuid-" : String).length = 5 := by decide
  have h₃ : ("" : String).length = 0 := by decide
  omega

theorem applyAdded_found {s : Store} {i : Option String} {o : SceneObject}
    (d : Attrs) (h : findObj s i = some o) : applyAdded s i d = s := by
  simp [applyAdded, h]

theorem assignId_id_nonempty (n : Nat) (o : SceneObject) :
    ∃ s, (assignId n o).id = some s ∧ s ≠ "" := by
  by_cases hf : isFalsyId o.id
  · exact ⟨generateId n, by simp [assignId, hf], generateId_ne_empty n⟩
  · cases ho : o.id with
    | none => simp [isFalsyId, ho] at hf
    | some s =>
      rw [ho] at hf
      refine ⟨s, ?_, ?_⟩
      · simp [assignId, ho, hf]
      · intro hs
        subst hs
        simp [isFalsyId] at hf

/-- C1: the claim says that after the remote apply engine has applied a
Modified event to an object, a later user-caused local modification of that
object still emits exactly one outbound `object:modified` message.  The code
violates this: the remote handler stamps `__skipEmit` on the object and the
marker is never cleared, so the local `object:modified` listener emits nothing
for that object ever after.  This theorem evaluates the embedding at the
failing input: before the remote apply the local edit emits one message, and
after it the same local edit emits zero. -/
theorem c1_marker_suppresses_later_local_edits :
    (localModifiedEvents
        { id := some "r1", attrs := [("left", "10")], skipEmit := false }).length = 1
    ∧ (findObj (applyModified r1Store (some "r1") [("left", "40")])
          (some "r1")).map (fun o => (localModifiedEvents o).length) = some 0 := by
  decide

/-- C2: the claim says a user-triggered Clear both removes every local object
and broadcasts a `canvas:clear` message.  The code violates the second half:
the `clear` tool branch clears the canvas and emits nothing.  This theorem
evaluates the embedding at the failing input: the store is emptied and the
emitted message list is empty, in particular containing no `canvas:clear`. -/
theorem c2_clear_tool_emits_no_message :
    clearToolEffect demoStoreTwo = ([], [])
    ∧ Msg.canvasClear ∉ (clearToolEffect demoStoreTwo).2 := by
  decide

/-- C3 counterexample: the claim says that after Modified(E1) then
Modified(E2) the object carries exactly the attribute set of E2, with none of
the fields of E1 surviving.  The remote handler instead assigns the snapshot
per-field with `obj.set({ ...objectData })`, so a field E1 set and E2 omits
survives: starting from an object with no attributes, E1 = [color ↦ red] and
E2 = [left ↦ 40] leave the object with color ↦ red even though E2 has no
color binding. -/
theorem c3_counterexample :
    storeAttrs
        (applyModified
          (applyModified [{ id := some "x", attrs := [], skipEmit := false }]
            (some "x") [("color", "red")])
          (some "x") [("left", "40")]) (some "x")
      = some [("color", "red"), ("left", "40")]
    ∧ lookupAttr "color" [("left", "40")] = none := by
  decide

/-- C3 amended: Modified applies the incoming snapshot per-field, and when the
second snapshot binds every key the object carries after the first one (as
the full `toJSON` payloads the client emits do), the resulting attribute set
agrees with E2 on every key — last-writer-wins. -/
theorem c3_modified_last_writer_wins (s : Store) (i : Option String)
    (e₁ e₂ : Attrs) (o : SceneObject) (hfind : findObj s i = some o)
    (hnodup : (e₂.map Prod.fst).Nodup)
    (hcover : (setAll o.attrs e₁).all
        (fun kv => (lookupAttr kv.1 e₂).isSome) = true) :
    ∀ k, (findObj (applyModified (applyModified s i e₁) i e₂) i).map
        (fun o₂ => lookupAttr k o₂.attrs) = some (lookupAttr k e₂) := by
  intro k
  have h₁ := findObj_applyModified e₁ hfind
  have h₂ := findObj_applyModified e₂ h₁
  rw [h₂]
  simp only [Option.map_some', Option.some.injEq]
  rw [lookupAttr_setAll _ _ _ hnodup]
  cases he₂ : lookupAttr k e₂ with
  | some v => simp
  | none =>
    cases ha : lookupAttr k (setAll o.attrs e₁) with
    | none => simp
    | some v =>
      exfalso
      have hmem := lookupAttr_mem ha
      have hall := (List.all_eq_true.mp hcover) _ hmem
      simp [he₂] at hall

/-- C3 witness: the amended theorem applied at a concrete store and two
concrete full snapshots over the key `color`. -/
theorem c3_lww_witness :
    (findObj (applyModified (applyModified [w3obj] (some "x") [("color", "red")])
        (some "x") [("color", "blue")]) (some "x")).map
      (fun o₂ => lookupAttr "color" o₂.attrs)
      = some (lookupAttr "color" [("color", "blue")]) :=
  c3_modified_last_writer_wins [w3obj] (some "x") [("color", "red")]
    [("color", "blue")] w3obj (by decide) (by decide) (by decide) "color"

/-- C4: the claim says teardown closes the connection and releases every
registered socket and window listener.  The code violates this: the teardown
closure calls `socket.off` only for `object:added`, `object:removed`,
`object:modified` and `object:sync`, so the `connect` and `canvas:clear`
socket listeners stay registered (disconnecting a socket does not remove its
listeners).  This theorem evaluates the embedding at the failing input: both
window listeners are released and the connection is closed, but the socket
still holds its `connect` and `canvas:clear` listeners. -/
theorem c4_teardown_leaves_listeners :
    (teardown initTransport).windowListeners = []
    ∧ (teardown initTransport).connected = false
    ∧ (teardown initTransport).socketListeners = ["connect", "canvas:clear"] := by
  decide

/-- C5: applying the same remote Added event twice is idempotent, and from any
store holding at most one object with the incoming identity (every reachable
store holds at most one), the result holds exactly one object with that
identity; in particular a redelivered own broadcast inserts no duplicate. -/
theorem c5_applyAdded_idempotent (s : Store) (i : Option String) (d : Attrs)
    (h : countId s i ≤ 1) :
    applyAdded (applyAdded s i d) i d = applyAdded s i d
    ∧ countId (applyAdded (applyAdded s i d) i d) i = 1 := by
  cases hf : findObj s i with
  | some o =>
    have h₁ : applyAdded s i d = s := by simp [applyAdded, hf]
    have hc : countId s i = 1 := by
      have hne : countId s i ≠ 0 := by
        intro h0
        have := countId_eq_zero.mp h0
        simp [this] at hf
      omega
    constructor
    · rw [h₁, h₁]
    · rw [h₁, h₁]
      exact hc
  | none =>
    have h0 : countId s i = 0 := countId_eq_zero.mpr hf
    have h₁ : applyAdded s i d = s ++ [{ id := i, attrs := d, skipEmit := true }] := by
      simp [applyAdded, hf]
    have h₂ : findObj (applyAdded s i d) i
        = some { id := i, attrs := d, skipEmit := true } := by
      rw [h₁, findObj_append, hf]
      simp [findObj]
    constructor
    · exact applyAdded_found d h₂
    · rw [applyAdded_found d h₂, h₁, countId_append]
      simp [countId, h0]

/-- C5 witness: the idempotence theorem applied at the empty store and a
concrete Added event. -/
theorem c5_applyAdded_witness :
    countId ([] : Store) (some "a") ≤ 1
    ∧ (applyAdded (applyAdded [] (some "a") [("k", "v")]) (some "a") [("k", "v")]
        = applyAdded [] (some "a") [("k", "v")]
      ∧ countId (applyAdded (applyAdded [] (some "a") [("k", "v")])
          (some "a") [("k", "v")]) (some "a") = 1) :=
  ⟨by decide, c5_applyAdded_idempotent [] (some "a") [("k", "v")] (by decide)⟩

/-- C6: applying a snapshot carrying N objects over any prior store results in
exactly those N objects: the handler clears the canvas and re-adds one fresh
object per snapshot entry, so the result is the instantiation of the payload,
independent of the prior state. -/
theorem c6_snapshot_replaces_store (s : Store)
    (payload : List (Option String × Attrs)) :
    applySnapshot s payload = payload.map instantiate
    ∧ (applySnapshot s payload).length = payload.length := by
  have h : applySnapshot s payload = payload.map instantiate := by
    rw [show applySnapshot s payload
        = payload.foldl (fun a od => a ++ [instantiate od]) [] from rfl,
      foldl_snoc_instantiate]
    simp
  exact ⟨h, by rw [h, List.length_map]⟩

/-- C7: applying a remote ClearEvent to a store holding K > 0 objects results
in a store with 0 objects. -/
theorem c7_clear_empties_store (s : Store) (_h : 0 < s.length) :
    applyClear s = [] ∧ (applyClear s).length = 0 :=
  ⟨rfl, rfl⟩

/-- C7 witness: the clear theorem applied at a one-object store. -/
theorem c7_clear_witness :
    0 < ([wObjA] : Store).length
    ∧ (applyClear [wObjA] = [] ∧ (applyClear [wObjA]).length = 0) :=
  ⟨by decide, c7_clear_empties_store [wObjA] (by decide)⟩

/-- C8: an inbound Modified or Removed event whose identity matches no object
leaves the store unchanged; the handlers look the object up, find nothing and
return, raising no error (the embedding functions are total). -/
theorem c8_unknown_identity_noop (s : Store) (i : Option String) (d : Attrs)
    (h : findObj s i = none) :
    applyModified s i d = s ∧ applyRemoved s i = s :=
  ⟨applyModified_not_found d h, applyRemoved_not_found h⟩

/-- C8 witness: the no-op theorem applied at a store holding only identity `a`
and an event for the unknown identity `b`. -/
theorem c8_unknown_identity_witness :
    findObj [wObjA] (some "b") = none
    ∧ (applyModified [wObjA] (some "b") [("k", "v")] = [wObjA]
       ∧ applyRemoved [wObjA] (some "b") = [wObjA]) :=
  ⟨by decide, c8_unknown_identity_noop [wObjA] (some "b") [("k", "v")] (by decide)⟩

/-- C9: every message the local `object:added` listener emits is an
`object:added` message carrying a non-empty identity: when the object lacks an
id (or carries the falsy empty string), a freshly generated non-empty one is
assigned before the message is built. -/
theorem c9_added_emits_nonempty_identity (n : Nat) (o : SceneObject) (m : Msg)
    (hm : m ∈ (localAddedHandler n o).emitted) :
    ∃ s a, m = Msg.objectAdded (some s) a ∧ s ≠ "" := by
  obtain ⟨s, hs, hne⟩ := assignId_id_nonempty n o
  by_cases he : (assignId n o).skipEmit
  · simp [localAddedHandler, he] at hm
  · simp [localAddedHandler, he] at hm
    exact ⟨s, (assignId n o).attrs, by rw [hm, hs], hne⟩

/-- C9 witness: the identity theorem applied at an id-less, locally created
object; the handler assigns the generated id before emitting. -/
theorem c9_added_identity_witness :
    Msg.objectAdded (some "uuid-0") []
        ∈ (localAddedHandler 0 { id := none, attrs := [], skipEmit := false }).emitted
    ∧ ∃ s a, Msg.objectAdded (some "uuid-0") [] = Msg.objectAdded (some s) a
        ∧ s ≠ "" :=
  ⟨by decide,
   c9_added_emits_nonempty_identity 0
     { id := none, attrs := [], skipEmit := false }
     (Msg.objectAdded (some "uuid-0") []) (by decide)⟩

/-- C10: the claim says a gesture ending with a degenerate shape commits no
object to the store and emits no `object:added` message.  The code violates
this: the first `mouse:move` adds the preview shape to the canvas, which fires
`object:added` and emits a message, and the degenerate `mouse:up` leaves that
preview on the canvas.  This theorem evaluates the rectangle tool at the
failing input — mouse down at the origin, one move straight down to (0, 50),
mouse up — where width stays 0: the final canvas holds the preview shape and
one `object:added` message was emitted. -/
theorem c10_degenerate_gesture_leaves_preview :
    runRectGesture [] { x := 0, y := 0 } [{ x := 0, y := 50 }]
      = ([{ left := 0, top := 0, width := 0, height := 50 }], 1, 0) := by
  decide
